import Mathlib

/-!
Shallow embedding of the two log-analysis scripts of the shebe repository:
scripts/analyze-claude-errors.py and scripts/analyze-serena-context.py.
Strings are modelled as lists of characters; each regular expression of the
source is embedded as a matcher specialised to that pattern (match at one
position) together with a generic leftmost search, mirroring re.search.
Fallible code (expressions that can raise) returns Option.
-/

namespace Shebe

/-- Word characters of the regex class w: letters, digits and underscore. -/
def isWordChar (c : Char) : Bool := c.isAlphanum || c = '_'

/-- Does the list start with a word character. -/
def headIsWord : List Char → Bool
  | [] => false
  | c :: _ => isWordChar c

/-- Does the first list start with the second (a literal). -/
def startsWith : List Char → List Char → Bool
  | _, [] => true
  | [], _ :: _ => false
  | c :: s, d :: l => c = d && startsWith s l

/-- Substring test: Python membership of a literal in a string. -/
def containsTok : List Char → List Char → Bool
  | [], lit => lit.isEmpty
  | c :: s, lit => startsWith (c :: s) lit || containsTok s lit

/-- Consume a literal from the front of the input, or fail. -/
def stripLit : List Char → List Char → Option (List Char)
  | [], s => some s
  | _ :: _, [] => none
  | d :: l, c :: s => if c = d then stripLit l s else none

/-- Leftmost search: try the position matcher at every suffix, first hit wins.
This mirrors how re.search scans start positions left to right. -/
def searchOpt {α : Type} (m : List Char → Option α) : List Char → Option α
  | [] => m []
  | c :: s =>
    match m (c :: s) with
    | some r => some r
    | none => searchOpt m s

/-- Boolean leftmost search over all suffixes. -/
def anySuffix (p : List Char → Bool) : List Char → Bool
  | [] => p []
  | c :: s => p (c :: s) || anySuffix p s

/-- Python str.strip with no argument: drop whitespace at both ends. -/
def pyStrip (s : List Char) : List Char :=
  ((s.dropWhile Char.isWhitespace).reverse.dropWhile Char.isWhitespace).reverse

/-- Accumulator loop of Python str.split with no argument. -/
def pySplitAux : List Char → List Char → List (List Char)
  | [], acc => if acc.isEmpty then [] else [acc.reverse]
  | c :: s, acc =>
    if c.isWhitespace then
      if acc.isEmpty then pySplitAux s [] else acc.reverse :: pySplitAux s []
    else pySplitAux s (c :: acc)

/-- Python str.split with no argument: maximal runs of non-whitespace. -/
def pySplit (s : List Char) : List (List Char) := pySplitAux s []

/-- Python str.lower, character by character. -/
def pyLower (s : List Char) : List Char := s.map Char.toLower

/-- Python str.split on one separator character, keeping empty pieces. -/
def pySplitOn (sep : Char) : List Char → List (List Char)
  | [] => [[]]
  | c :: s =>
    if c = sep then [] :: pySplitOn sep s
    else
      match pySplitOn sep s with
      | h :: r => (c :: h) :: r
      | [] => [[c]]

/-! Matchers for the regular expressions of ShebeErrorAnalyzer. -/

/-- Position matcher for the URL rule of the sub-classifier: slash, a word run,
slash, an optional opening brace, then at least one word character (the closing
brace of the pattern is optional, so it constrains nothing). -/
def urlPatAt : List Char → Bool
  | '/' :: s =>
    let w := s.takeWhile isWordChar
    !w.isEmpty &&
      (match s.drop w.length with
       | '/' :: u =>
         (match u with
          | '\x7b' :: v => headIsWord v
          | _ => headIsWord u)
       | _ => false)
  | _ => false

/-- Search form of the URL rule. -/
def hasUrlPat (q : List Char) : Bool := anySuffix urlPatAt q

/-- Literal of the swagger-router membership test. -/
def routerLit : List Char := "@Router".data

/-- The condition on line 236 of analyze-claude-errors.py.  By Python operator
precedence the line reads as a conditional expression whose test is the query:
on an empty query the expression is the empty string (falsy); on a non-empty
query it is the disjunction, whose second disjunct indexes split()[0] and
raises IndexError when the token list is empty. `none` models that raise. -/
def annotCond (query : List Char) : Option Bool :=
  if query.isEmpty then some false
  else if containsTok query routerLit then some true
  else
    match pySplit query with
    | [] => none
    | t :: _ => some (containsTok t ('@' :: []))

/-- Anchored matcher for the colon-ended word run at the start of the query. -/
def fieldColonAt (q : List Char) : Bool :=
  let w := q.takeWhile isWordChar
  !w.isEmpty &&
    (match q.drop w.length with
     | ':' :: _ => true
     | _ => false)

/-- One of the characters of the special-character class of rule 5. -/
def isSpecialChar (c : Char) : Bool :=
  c = ':' || c = '[' || c = ']' || c = '\x7b' || c = '\x7d'

/-- The query-text sub-classifier (method classify-query-error).  Returns the
subcategory string, or none when the annotation check raises. -/
def classify_query_error (query : List Char) : Option String :=
  if hasUrlPat query then some ("url_pattern")
  else
    match annotCond query with
    | none => none
    | some true => some ("annotation")
    | some false =>
      if containsTok query (':' :: '=' :: []) then some ("assignment")
      else if fieldColonAt query then some ("field_prefix")
      else if query.any isSpecialChar then some ("special_chars")
      else if 3 < (pySplit query).length then some ("complex_phrase")
      else some ("other")

/-- String-level wrapper of the sub-classifier. -/
def classifyQueryError (q : String) : Option String := classify_query_error q.data

/-- The seven subcategory strings the sub-classifier can return. -/
def subcategories : List String :=
  [("url_pattern"), ("annotation"), ("assignment"), ("field_prefix"),
   ("special_chars"), ("complex_phrase"), ("other")]

/-- Literal head of the tool-failure pattern. -/
def toolFailLit : List Char := "Tool \x27".data

/-- Literal after the captured tool name in the tool-failure pattern. -/
def failedLit : List Char := "\x27 failed".data

/-- Lazy capture of at least one non-newline character running to the first
newline or the end of the line: the final group of the tool-failure pattern. -/
def lazyMsg : List Char → Option (List Char)
  | [] => none
  | c :: s => if c = '\n' then none else some (c :: s.takeWhile fun x => x ≠ '\n')

/-- The lazy dot-star of the tool-failure pattern: skip non-newline characters
up to the first colon-space at which the message capture succeeds. -/
def toolFailTail : List Char → Option (List Char)
  | [] => none
  | c :: s =>
    match (stripLit (':' :: ' ' :: []) (c :: s)).bind lazyMsg with
    | some g => some g
    | none => if c = '\n' then none else toolFailTail s

/-- Position matcher for TOOL-FAIL-PATTERN, returning tool name and message.
The word run is maximal and exact: a shorter run would put a word character
where the quote of the pattern must stand. -/
def toolFailAt (s : List Char) : Option (List Char × List Char) :=
  (stripLit toolFailLit s).bind fun t =>
    let w := t.takeWhile isWordChar
    if w.isEmpty then none
    else
      (stripLit failedLit (t.drop w.length)).bind fun u =>
        (toolFailTail u).map fun msg => (w, msg)

/-- Literal head of the query-syntax pattern. -/
def synErrLit : List Char := "Syntax Error: ".data

/-- Lazy continuation of the query-syntax capture after its first character:
stop before a double quote, at the end, or before a trailing newline (the
dollar of the pattern also matches just before a final newline). -/
def lazyToQuote : List Char → Option (List Char)
  | [] => some []
  | c :: s =>
    if c = '\x22' then some []
    else if c = '\n' then (if s.isEmpty then some [] else none)
    else (lazyToQuote s).map fun g => c :: g

/-- Position matcher for QUERY-SYNTAX-PATTERN, returning the captured query. -/
def synErrAt (s : List Char) : Option (List Char) :=
  (stripLit synErrLit s).bind fun t =>
    match t with
    | [] => none
    | c :: u => if c = '\n' then none else (lazyToQuote u).map fun g => c :: g

/-- Literal head of the unknown-field pattern. -/
def fieldLit : List Char := "Field does not exist: \x27".data

/-- Position matcher for FIELD-NOT-EXIST-PATTERN, returning the field name. -/
def fieldAt (s : List Char) : Option (List Char) :=
  (stripLit fieldLit s).bind fun t =>
    let w := t.takeWhile isWordChar
    if w.isEmpty then none
    else
      match t.drop w.length with
      | '\x27' :: _ => some w
      | _ => none

/-- Literal head shared by the two session patterns. -/
def sessLit : List Char := "Session \x27".data

/-- Literal tail of the duplicate-session pattern. -/
def existsTailLit : List Char := "\x27 already exists".data

/-- Position matcher for SESSION-EXISTS-PATTERN, returning the session id. -/
def sessExistsAt (s : List Char) : Option (List Char) :=
  (stripLit sessLit s).bind fun t =>
    let w := t.takeWhile fun c => c ≠ '\x27'
    if w.isEmpty then none
    else if startsWith (t.drop w.length) existsTailLit then some w else none

/-- Literal between the two captures of the old-schema pattern. -/
def schemaMidLit : List Char := "\x27 uses old schema version ".data

/-- Position matcher for OLD-SCHEMA-PATTERN, returning session and version. -/
def oldSchemaAt (s : List Char) : Option (List Char × List Char) :=
  (stripLit sessLit s).bind fun t =>
    let w := t.takeWhile fun c => c ≠ '\x27'
    if w.isEmpty then none
    else
      (stripLit schemaMidLit (t.drop w.length)).bind fun u =>
        let d := u.takeWhile Char.isDigit
        if d.isEmpty then none else some (w, d)

/-- Literal head of the unindexed-file pattern. -/
def fileLit : List Char := "File \x27".data

/-- Literal between the two captures of the unindexed-file pattern. -/
def notIndexedMidLit : List Char := "\x27 not indexed in session \x27".data

/-- Position matcher for FILE-NOT-INDEXED-PATTERN: file path and session id. -/
def fileNotIndexedAt (s : List Char) : Option (List Char × List Char) :=
  (stripLit fileLit s).bind fun t =>
    let f := t.takeWhile fun c => c ≠ '\x27'
    if f.isEmpty then none
    else
      (stripLit notIndexedMidLit (t.drop f.length)).bind fun u =>
        let w := u.takeWhile fun c => c ≠ '\x27'
        if w.isEmpty then none
        else
          match u.drop w.length with
          | '\x27' :: _ => some (f, w)
          | _ => none

/-- Literal head of the tool-not-found pattern; the captured group carries the
fixed qualifier, so the matcher returns it prepended to the word run. -/
def notFoundHeadLit : List Char := "Tool mcp__shebe__".data

/-- Literal tail of the tool-not-found pattern. -/
def notFoundTailLit : List Char := " not found".data

/-- Position matcher for TOOL-NOT-FOUND-PATTERN, returning the tool name. -/
def notFoundAt (s : List Char) : Option (List Char) :=
  (stripLit notFoundHeadLit s).bind fun t =>
    let w := t.takeWhile isWordChar
    if w.isEmpty then none
    else if startsWith (t.drop w.length) notFoundTailLit then
      some ("mcp__shebe__".data ++ w)
    else none

/-! The categorizer and the aggregation state of ShebeErrorAnalyzer. -/

/-- Which result list a categorized record is appended to. -/
inductive Dest
  | query
  | session
  | file
  | other
deriving DecidableEq, Repr

/-- A record dictionary: ordered keys mapping to string values. -/
abbrev PyDict := List (String × String)

/-- Python dict.get with a default, first binding of the key wins. -/
def dictGet (d : PyDict) (k dflt : String) : String :=
  match d with
  | [] => dflt
  | (k2, v) :: t => if k2 = k then v else dictGet t k dflt

/-- Substring literal of rule 6 of the categorizer. -/
def unsupportedLit : List Char := "Unsupported query".data

/-- Substring literal of rule 7 of the categorizer. -/
def tooLargeLit : List Char := "exceeds maximum allowed tokens".data

/-- Substring literal of rule 8 of the categorizer. -/
def sessOnlyLit : List Char := "Session must contain only".data

/-- The categorizer (method categorize-error): ordered rules, first match wins.
Returns the destination list together with the record dictionary appended
there, or none when the sub-classifier of rule 1 raises. -/
def categorize_error (toolName : String) (msg : List Char) : Option (Dest × PyDict) :=
  match searchOpt synErrAt msg with
  | some raw =>
    let query := pyStrip raw
    (classify_query_error query).map fun cat =>
      (Dest.query,
       [(("tool"), toolName), (("query"), String.mk query), (("category"), cat)])
  | none =>
  match searchOpt fieldAt msg with
  | some fld =>
    some (Dest.query,
      [(("tool"), toolName), (("query"), String.mk fld ++ (":...")),
       (("category"), ("field_prefix")), (("field"), String.mk fld)])
  | none =>
  match searchOpt sessExistsAt msg with
  | some sess =>
    some (Dest.session,
      [(("tool"), toolName), (("session"), String.mk sess),
       (("category"), ("session_exists"))])
  | none =>
  match searchOpt oldSchemaAt msg with
  | some sv =>
    some (Dest.session,
      [(("tool"), toolName), (("session"), String.mk sv.1),
       (("category"), ("schema_mismatch")), (("old_version"), String.mk sv.2)])
  | none =>
  match searchOpt fileNotIndexedAt msg with
  | some fs =>
    some (Dest.file,
      [(("tool"), toolName), (("file"), String.mk fs.1),
       (("session"), String.mk fs.2), (("category"), ("file_not_indexed"))])
  | none =>
  if containsTok msg unsupportedLit then
    some (Dest.query,
      [(("tool"), toolName), (("category"), ("unsupported_query")),
       (("message"), String.mk msg)])
  else if containsTok msg tooLargeLit then
    some (Dest.file,
      [(("tool"), toolName), (("category"), ("response_too_large")),
       (("message"), String.mk msg)])
  else if containsTok msg sessOnlyLit then
    some (Dest.session,
      [(("tool"), toolName), (("category"), ("invalid_session_name"))])
  else
    some (Dest.other, [(("tool"), toolName), (("message"), String.mk msg)])

/-- The mutable aggregation state of the analyzer (dataclass AnalysisResult). -/
structure AnalysisResult where
  total_errors : Nat
  by_tool : List (String × Nat)
  by_category : List (String × List PyDict)
  query_syntax_errors : List PyDict
  session_errors : List PyDict
  file_errors : List PyDict
  other_errors : List PyDict
deriving DecidableEq, Repr

/-- The fresh aggregation state. -/
def emptyAnalysisResult : AnalysisResult :=
  { total_errors := 0, by_tool := [], by_category := [],
    query_syntax_errors := [], session_errors := [], file_errors := [],
    other_errors := [] }

/-- Increment a counter dictionary at a key (defaultdict int semantics). -/
def bumpTool : List (String × Nat) → String → List (String × Nat)
  | [], k => [(k, 1)]
  | (k2, v) :: t, k => if k2 = k then (k2, v + 1) :: t else (k2, v) :: bumpTool t k

/-- Read a counter dictionary at a key, zero when absent. -/
def toolCount : List (String × Nat) → String → Nat
  | [], _ => 0
  | (k2, v) :: t, k => if k2 = k then v else toolCount t k

/-- Append a categorized record to the list its destination names. -/
def addRecord (r : AnalysisResult) : Dest × PyDict → AnalysisResult
  | (Dest.query, d) => { r with query_syntax_errors := r.query_syntax_errors ++ [d] }
  | (Dest.session, d) => { r with session_errors := r.session_errors ++ [d] }
  | (Dest.file, d) => { r with file_errors := r.file_errors ++ [d] }
  | (Dest.other, d) => { r with other_errors := r.other_errors ++ [d] }

/-- First half of method extract-errors: the tool-failure pattern; on a match
the totals are bumped and the categorized record appended. -/
def failStep (r : AnalysisResult) (line : List Char) : Option AnalysisResult :=
  match searchOpt toolFailAt line with
  | some tm =>
    (categorize_error (String.mk tm.1) tm.2).map
      (addRecord { r with total_errors := r.total_errors + 1,
                          by_tool := bumpTool r.by_tool (String.mk tm.1) })
  | none => some r

/-- Second half of method extract-errors: the tool-not-found pattern; on a
match the totals are bumped under the synthetic tool key and an other-errors
record appended. -/
def notFoundStep (r : AnalysisResult) (line : List Char) : AnalysisResult :=
  match searchOpt notFoundAt line with
  | some toolName =>
    let tn := String.mk toolName
    { r with
        total_errors := r.total_errors + 1,
        by_tool := bumpTool r.by_tool ("tool_not_found"),
        other_errors := r.other_errors ++
          [[(("type"), ("tool_not_found")), (("tool"), tn),
            (("message"), ("Server not running when ") ++ tn ++ (" was called"))]] }
  | none => r

/-- Method extract-errors: try the tool-failure pattern and then the
tool-not-found pattern on one line, updating the state for each match. -/
def extract_errors (r : AnalysisResult) (line : List Char) : Option AnalysisResult :=
  (failStep r line).map fun r1 => notFoundStep r1 line

/-- The case-insensitive gate of analyze-file. -/
def shebeLit : List Char := "shebe".data

/-- Line loop of analyze-file: only lines that mention the tool family pass. -/
def processLines (r : AnalysisResult) : List (List Char) → Option AnalysisResult
  | [] => some r
  | l :: ls =>
    if containsTok (pyLower l) shebeLit then
      match extract_errors r l with
      | some r1 => processLines r1 ls
      | none => none
    else processLines r ls

/-- Method analyze-file on one document body. -/
def analyze_file (r : AnalysisResult) (content : List Char) : Option AnalysisResult :=
  processLines r (pySplitOn '\n' content)

/-- Append a record under a composite key (defaultdict list semantics). -/
def addToCategory : List (String × List PyDict) → String → PyDict → List (String × List PyDict)
  | [], k, d => [(k, [d])]
  | (k2, l) :: t, k, d =>
    if k2 = k then (k2, l ++ [d]) :: t else (k2, l) :: addToCategory t k d

/-- Group one error list into by-category under a key built from the given
piece and the category value of each record, unknown when absent. -/
def groupInto (pre : String) (errs : List PyDict)
    (bc : List (String × List PyDict)) : List (String × List PyDict) :=
  errs.foldl (fun acc d => addToCategory acc (pre ++ dictGet d ("category") ("unknown")) d) bc

/-- Method categorize-errors: group the three record lists, query errors
first, then session errors, then file errors. -/
def categorize_errors (r : AnalysisResult) : AnalysisResult :=
  let bc :=
    groupInto ("file_") r.file_errors
      (groupInto ("session_") r.session_errors
        (groupInto ("query_") r.query_syntax_errors r.by_category))
  { r with by_category := bc }

/-- Document loop of method analyze. -/
def processFiles (r : AnalysisResult) : List (List Char) → Option AnalysisResult
  | [] => some r
  | f :: fs =>
    match analyze_file r f with
    | some r1 => processFiles r1 fs
    | none => none

/-- A full run of the analyzer over the given document bodies: the line pass
followed by the final grouping. -/
def runAnalysis (contents : List String) : Option AnalysisResult :=
  (processFiles emptyAnalysisResult (contents.map String.data)).map categorize_errors

/-- Total record count over all composite-category buckets. -/
def sumBuckets (bc : List (String × List PyDict)) : Nat :=
  (bc.map fun p => p.2.length).sum

/-- Method analyze of analyze-claude-errors.py: a missing directory prints a
message and returns the fresh empty result; otherwise the documents are
processed and the final grouping runs.  The first component carries the
printed message. -/
def script1Analyze (dirPath : String) (dir : Option (List String)) :
    List String × Option AnalysisResult :=
  match dir with
  | none => ([("Debug directory not found: ") ++ dirPath], some emptyAnalysisResult)
  | some contents =>
    ([("Analyzing ") ++ toString contents.length ++ (" debug log files...")],
     runAnalysis contents)

/-- Length of a composite-category bucket, zero when the bucket is absent. -/
def catLen (r : AnalysisResult) (k : String) : Nat :=
  match r.by_category.find? fun p => p.1 = k with
  | some p => p.2.length
  | none => 0

/-- Recommendation engine of the script, reduced to the ordered list of
category labels of the improvement records it emits; the text payloads bear on
no claim and are elided.  The outer nonempty-family gates of the source are
implied by the positive bucket counts and change no outcome. -/
def improvementLabels (r : AnalysisResult) : List String :=
  (if 0 < catLen r ("query_url_pattern") then [("Query Parsing - URL Patterns")] else []) ++
  (if 0 < catLen r ("query_annotation") then [("Query Parsing - Code Annotations")] else []) ++
  (if 0 < catLen r ("query_field_prefix") then [("Query Parsing - Field Prefixes")] else []) ++
  (if 0 < catLen r ("query_special_chars") then [("Query Parsing - Special Characters")] else []) ++
  (if 0 < catLen r ("session_session_exists") then [("Session Management - Auto Re-index")] else []) ++
  (if 0 < catLen r ("session_schema_mismatch") then [("Session Management - Schema Migration")] else []) ++
  (if 0 < catLen r ("file_file_not_indexed") then [("File Access - Not Indexed")] else []) ++
  (if 0 < toolCount r.by_tool ("tool_not_found") then [("Server Availability")] else [])

/-- Main of analyze-claude-errors.py: analyze, build improvements, print the
report and export it.  Printing and export read fields of the result and
cannot raise, so a normal completion (exit status zero) is exactly a some
value; none is an exception escaping the pipeline. -/
def script1Main (dirPath : String) (dir : Option (List String)) :
    Option (AnalysisResult × List String) :=
  match (script1Analyze dirPath dir).2 with
  | none => none
  | some res => some (res, improvementLabels res)

/-! Embedding of analyze-serena-context.py (ContextAnalyzer). -/

/-- Per-session statistics (dataclass SessionStats). -/
structure SessionStats where
  session_id : String
  file_size_bytes : Nat
  tool_calls : List String
  serena_calls : Nat
  shebe_calls : Nat
  other_mcp_calls : Nat
  builtin_calls : Nat
  has_serena : Bool
  has_shebe : Bool
  estimated_tokens : Nat
deriving DecidableEq, Repr

/-- Sessions that used serena and not shebe (line 143 of the script). -/
def serenaOnly (ss : List SessionStats) : List SessionStats :=
  ss.filter fun s => s.has_serena && !s.has_shebe

/-- Sessions that used shebe and not serena (line 144 of the script). -/
def shebeOnly (ss : List SessionStats) : List SessionStats :=
  ss.filter fun s => s.has_shebe && !s.has_serena

/-- Sessions that used both providers (line 145 of the script). -/
def bothProviders (ss : List SessionStats) : List SessionStats :=
  ss.filter fun s => s.has_serena && s.has_shebe

/-- Sessions that used neither provider (line 146 of the script). -/
def neitherProvider (ss : List SessionStats) : List SessionStats :=
  ss.filter fun s => !s.has_serena && !s.has_shebe

/-- Sum of log sizes of a session group, as a rational (float arithmetic of
the source on integer byte counts, modelled exactly in the rationals). -/
def sumSizes (g : List SessionStats) : ℚ :=
  (g.map fun s => (s.file_size_bytes : ℚ)).sum

/-- The comparison block of the report (lines 163 to 192 of the script). -/
structure Comparison where
  avg_log_size_serena_sessions_kb : ℚ
  avg_log_size_shebe_sessions_kb : ℚ
  avg_log_size_no_mcp_sessions_kb : ℚ
  avg_serena_calls_per_session : ℚ
  avg_shebe_calls_per_session : ℚ
  serena_vs_shebe_size_ratio : ℚ
deriving DecidableEq, Repr

/-- The comparison metrics: averages over the exclusive groups, each guarded
by the emptiness of its group, and the size ratio guarded by a positive
denominator. -/
def comparisonOf (sessions : List SessionStats) : Comparison :=
  let so := serenaOnly sessions
  let he := shebeOnly sessions
  let ne := neitherProvider sessions
  let serena_avg_size : ℚ := if so.isEmpty then 0 else sumSizes so / so.length
  let serena_avg_calls : ℚ :=
    if so.isEmpty then 0 else ((so.map fun s => (s.serena_calls : ℚ)).sum) / so.length
  let shebe_avg_size : ℚ := if he.isEmpty then 0 else sumSizes he / he.length
  let shebe_avg_calls : ℚ :=
    if he.isEmpty then 0 else ((he.map fun s => (s.shebe_calls : ℚ)).sum) / he.length
  let neither_avg_size : ℚ := if ne.isEmpty then 0 else sumSizes ne / ne.length
  { avg_log_size_serena_sessions_kb := serena_avg_size / 1024,
    avg_log_size_shebe_sessions_kb := shebe_avg_size / 1024,
    avg_log_size_no_mcp_sessions_kb := neither_avg_size / 1024,
    avg_serena_calls_per_session := serena_avg_calls,
    avg_shebe_calls_per_session := shebe_avg_calls,
    serena_vs_shebe_size_ratio :=
      if 0 < shebe_avg_size then serena_avg_size / shebe_avg_size else 0 }

/-- Method aggregate-stats: the empty group yields the short dictionary of
zeros; a nonempty group yields the full dictionary with the two estimated
token entries included.  The label parameter of the source is unused there
and dropped here. -/
def aggregate_stats (sessions : List SessionStats) : List (String × ℚ) :=
  if sessions.isEmpty then
    [(("count"), 0), (("total_file_size_mb"), 0), (("avg_file_size_kb"), 0),
     (("total_tool_calls"), 0), (("avg_tool_calls"), 0)]
  else
    let total_size := sumSizes sessions
    let total_calls : ℚ := (sessions.map fun s => (s.tool_calls.length : ℚ)).sum
    let tok : ℚ := (sessions.map fun s => (s.estimated_tokens : ℚ)).sum
    [(("count"), (sessions.length : ℚ)),
     (("total_file_size_mb"), total_size / (1024 * 1024)),
     (("avg_file_size_kb"), (total_size / sessions.length) / 1024),
     (("total_tool_calls"), total_calls),
     (("avg_tool_calls"), total_calls / sessions.length),
     (("estimated_total_tokens"), tok),
     (("estimated_avg_tokens"), tok / sessions.length)]

/-- Read an aggregate dictionary at a key, zero when the key is absent. -/
def aggGet (d : List (String × ℚ)) (k : String) : ℚ :=
  match d with
  | [] => 0
  | (k2, v) :: t => if k2 = k then v else aggGet t k

/-- Values of the machine-readable report of the second script. -/
inductive RVal
  | num (x : ℚ)
  | table (d : List (String × RVal))

/-- Lookup in a report dictionary; none models a KeyError subscript. -/
def lookupR (d : List (String × RVal)) (k : String) : Option RVal :=
  match d with
  | [] => none
  | (k2, v) :: t => if k2 = k then some v else lookupR t k

/-- Lift an aggregate dictionary into report values. -/
def qd (l : List (String × ℚ)) : RVal :=
  RVal.table (l.map fun p => (p.1, RVal.num p.2))

/-- The six comparison entries in the order the source writes them. -/
def comparisonDict (c : Comparison) : List (String × ℚ) :=
  [(("avg_log_size_serena_sessions_kb"), c.avg_log_size_serena_sessions_kb),
   (("avg_log_size_shebe_sessions_kb"), c.avg_log_size_shebe_sessions_kb),
   (("avg_log_size_no_mcp_sessions_kb"), c.avg_log_size_no_mcp_sessions_kb),
   (("avg_serena_calls_per_session"), c.avg_serena_calls_per_session),
   (("avg_shebe_calls_per_session"), c.avg_shebe_calls_per_session),
   (("serena_vs_shebe_size_ratio"), c.serena_vs_shebe_size_ratio)]

/-- Method tool-breakdown reduced to per-tool total call counts; the session
sets and the descending sort bear on no claim and are elided. -/
def toolBreakdown (sessions : List SessionStats) : List (String × Nat) :=
  sessions.foldl (fun acc s => s.tool_calls.foldl bumpTool acc) []

/-- Method generate-report: the summary block, the three aggregate groups
(the serena and shebe groups include the sessions that used both providers),
the comparison block that overwrites the initial empty one, and the tool
breakdown. -/
def generate_report (sessions : List SessionStats) : RVal :=
  let so := serenaOnly sessions
  let he := shebeOnly sessions
  let bo := bothProviders sessions
  let ne := neitherProvider sessions
  RVal.table
    [(("summary"), qd
       [(("total_sessions_analyzed"), (sessions.length : ℚ)),
        (("sessions_with_serena_only"), (so.length : ℚ)),
        (("sessions_with_shebe_only"), (he.length : ℚ)),
        (("sessions_with_both"), (bo.length : ℚ)),
        (("sessions_with_neither"), (ne.length : ℚ))]),
     (("serena_sessions"), qd (aggregate_stats (so ++ bo))),
     (("shebe_sessions"), qd (aggregate_stats (he ++ bo))),
     (("no_mcp_sessions"), qd (aggregate_stats ne)),
     (("comparison"), qd (comparisonDict (comparisonOf sessions))),
     (("tool_call_breakdown"),
      RVal.table ((toolBreakdown sessions).map fun p => (p.1, RVal.num (p.2 : ℚ))))]

/-- The retention filter of method analyze (line 88 of the script). -/
def retained (stats : List SessionStats) : List SessionStats :=
  stats.filter fun s => 0 < s.serena_calls || 0 < s.shebe_calls || 5 < s.builtin_calls

/-- Method analyze of analyze-serena-context.py, parameterized over the
already parsed per-file session statistics (the parsing of log text into
SessionStats bears on no claim; the missing-directory branch returns the
empty dictionary before any file is touched).  The first component carries
the printed message. -/
def script2Analyze (dirPath : String) (dir : Option (List SessionStats)) :
    List String × RVal :=
  match dir with
  | none => ([("Debug directory not found: ") ++ dirPath], RVal.table [])
  | some stats =>
    ([("Analyzing ") ++ toString stats.length ++ (" debug log files...")],
     generate_report (retained stats))

/-- The subscript reads of print-report of the second script, in source
order: each top-level access raises KeyError (none) when the key is absent.
The per-section reads subscript the tables fetched here and are present in
every report generate-report builds; the tool breakdown is read with dict.get
and cannot raise.  Value formatting is elided. -/
def print_report2 (report : RVal) : Option Unit :=
  match report with
  | RVal.num _ => none
  | RVal.table d =>
    (lookupR d ("summary")).bind fun _ =>
    (lookupR d ("serena_sessions")).bind fun _ =>
    (lookupR d ("shebe_sessions")).bind fun _ =>
    (lookupR d ("no_mcp_sessions")).bind fun _ =>
    (lookupR d ("comparison")).bind fun _ =>
    some ()

/-- Main of analyze-serena-context.py: analyze then print then export.  The
print step subscripts the report, so on the empty report of the missing
directory the run dies with KeyError before reaching the export; a some value
is a normal completion with exit status zero. -/
def script2Main (dirPath : String) (dir : Option (List SessionStats)) : Option Unit :=
  print_report2 (script2Analyze dirPath dir).2

/-! Helper lemmas. -/

/-- Bumping a counter dictionary raises the bumped key by one. -/
theorem toolCount_bump (bt : List (String × Nat)) (k : String) :
    toolCount (bumpTool bt k) k = toolCount bt k + 1 := by
  induction bt with
  | nil => simp [bumpTool, toolCount]
  | cons p t ih =>
    obtain ⟨k2, v⟩ := p
    by_cases h : k2 = k <;> simp [bumpTool, toolCount, h, ih]

/-- The split accumulator loop cannot return the empty list when started on a
nonempty accumulator. -/
theorem pySplitAux_ne_nil_acc (s : List Char) (acc : List Char)
    (h : acc.isEmpty = false) : pySplitAux s acc ≠ [] := by
  induction s generalizing acc with
  | nil => simp [pySplitAux, h]
  | cons c t ih =>
    by_cases hc : c.isWhitespace <;> simp only [pySplitAux, hc]
    · simp [h]
    · exact ih (c :: acc) (by simp)

/-- A string containing a non-whitespace character splits into at least one
token, whatever the accumulator. -/
theorem pySplitAux_ne_nil (s : List Char) (c : Char) (hc : c ∈ s)
    (hw : c.isWhitespace = false) : ∀ acc, pySplitAux s acc ≠ [] := by
  induction s with
  | nil => cases hc
  | cons d t ih =>
    intro acc
    by_cases hd : d.isWhitespace <;> simp only [pySplitAux, hd]
    · have hct : c ∈ t := by
        rcases List.mem_cons.mp hc with rfl | hct
        · rw [hd] at hw; cases hw
        · exact hct
      by_cases ha : acc.isEmpty <;> simp [ha]
      exact ih hct []
    · exact pySplitAux_ne_nil_acc t (d :: acc) (by simp)

/-- A string containing a non-whitespace character has a nonempty split. -/
theorem pySplit_ne_nil (s : List Char) (c : Char) (hc : c ∈ s)
    (hw : c.isWhitespace = false) : pySplit s ≠ [] :=
  pySplitAux_ne_nil s c hc hw []

/-- The annotation condition evaluates without raising on the empty string and
on every string holding a non-whitespace character. -/
theorem annotCond_isSome (q : List Char)
    (h : q = [] ∨ ∃ c ∈ q, c.isWhitespace = false) :
    ∃ b, annotCond q = some b := by
  rcases h with rfl | ⟨c, hc, hw⟩
  · exact ⟨false, rfl⟩
  · have hne : q.isEmpty = false := by
      cases q
      · cases hc
      · rfl
    unfold annotCond
    rw [if_neg (by simp [hne])]
    by_cases hr : containsTok q routerLit = true
    · rw [if_pos hr]
      exact ⟨true, rfl⟩
    · rw [if_neg hr]
      cases hsp : pySplit q with
      | nil => exact absurd hsp (pySplit_ne_nil q c hc hw)
      | cons t r => exact ⟨_, rfl⟩

/-- Reading the count entry of an aggregate dictionary gives the group size,
in both the empty and the populated branch. -/
theorem aggGet_count (g : List SessionStats) :
    aggGet (aggregate_stats g) ("count") = (g.length : ℚ) := by
  by_cases h : g.isEmpty
  · have : g = [] := List.isEmpty_iff.mp h
    subst this
    simp [aggregate_stats, aggGet]
  · simp [aggregate_stats, h, aggGet]

/-- Combined length of the four record lists of the analyzer state. -/
def recCount (r : AnalysisResult) : Nat :=
  r.query_syntax_errors.length + r.session_errors.length +
    r.file_errors.length + r.other_errors.length

/-- Appending a categorized record grows exactly one record list and leaves
the totals and the buckets alone. -/
theorem addRecord_recCount (r : AnalysisResult) (p : Dest × PyDict) :
    recCount (addRecord r p) = recCount r + 1 ∧
    (addRecord r p).total_errors = r.total_errors ∧
    (addRecord r p).by_category = r.by_category := by
  obtain ⟨d, dict⟩ := p
  cases d <;> simp [addRecord, recCount] <;> omega

/-- Equation of the tool-failure step on a line with no match. -/
theorem failStep_none (r : AnalysisResult) (line : List Char)
    (h : searchOpt toolFailAt line = none) : failStep r line = some r := by
  unfold failStep
  rw [h]

/-- Equation of the tool-failure step on a matching line. -/
theorem failStep_some (r : AnalysisResult) (line : List Char)
    (tm : List Char × List Char) (h : searchOpt toolFailAt line = some tm) :
    failStep r line =
      (categorize_error (String.mk tm.1) tm.2).map
        (addRecord { r with total_errors := r.total_errors + 1,
                            by_tool := bumpTool r.by_tool (String.mk tm.1) }) := by
  unfold failStep
  rw [h]

/-- The tool-failure step keeps record count equal to the total and does not
touch the buckets. -/
theorem failStep_inv (r r2 : AnalysisResult) (line : List Char)
    (h : failStep r line = some r2)
    (hi : recCount r = r.total_errors) :
    recCount r2 = r2.total_errors ∧ r2.by_category = r.by_category := by
  cases htf : searchOpt toolFailAt line with
  | none =>
    rw [failStep_none r line htf] at h
    cases h
    exact ⟨hi, rfl⟩
  | some tm =>
    rw [failStep_some r line tm htf] at h
    cases hce : categorize_error (String.mk tm.1) tm.2 with
    | none =>
      rw [hce] at h
      cases h
    | some p =>
      rw [hce] at h
      simp only [Option.map_some'] at h
      cases h
      obtain ⟨h1, h2, h3⟩ := addRecord_recCount
        { r with total_errors := r.total_errors + 1,
                 by_tool := bumpTool r.by_tool (String.mk tm.1) } p
      refine ⟨?_, h3⟩
      rw [h1, h2]
      have hr1 : recCount { r with total_errors := r.total_errors + 1, by_tool := bumpTool r.by_tool (String.mk tm.1) } = recCount r := rfl
      have ht1 : ({ r with total_errors := r.total_errors + 1, by_tool := bumpTool r.by_tool (String.mk tm.1) } : AnalysisResult).total_errors = r.total_errors + 1 := rfl
      rw [hr1, ht1, hi]

/-- Equation of the tool-not-found step on a line with no match. -/
theorem notFoundStep_none (r : AnalysisResult) (line : List Char)
    (h : searchOpt notFoundAt line = none) : notFoundStep r line = r := by
  unfold notFoundStep
  rw [h]

/-- Equation of the tool-not-found step on a matching line. -/
theorem notFoundStep_some (r : AnalysisResult) (line : List Char)
    (tn : List Char) (h : searchOpt notFoundAt line = some tn) :
    notFoundStep r line =
      { r with
          total_errors := r.total_errors + 1,
          by_tool := bumpTool r.by_tool ("tool_not_found"),
          other_errors := r.other_errors ++
            [[(("type"), ("tool_not_found")), (("tool"), String.mk tn),
              (("message"),
               ("Server not running when ") ++ String.mk tn ++ (" was called"))]] } := by
  unfold notFoundStep
  rw [h]

/-- The tool-not-found step keeps record count equal to the total and does
not touch the buckets. -/
theorem notFoundStep_inv (r : AnalysisResult) (line : List Char)
    (hi : recCount r = r.total_errors) :
    recCount (notFoundStep r line) = (notFoundStep r line).total_errors ∧
    (notFoundStep r line).by_category = r.by_category := by
  cases hnf : searchOpt notFoundAt line with
  | none =>
    rw [notFoundStep_none r line hnf]
    exact ⟨hi, rfl⟩
  | some tn =>
    rw [notFoundStep_some r line tn hnf]
    refine ⟨?_, rfl⟩
    simp [recCount] at hi ⊢
    omega

/-- Per-line extraction keeps record count equal to the total and does not
touch the buckets. -/
theorem extract_errors_inv (r r2 : AnalysisResult) (line : List Char)
    (h : extract_errors r line = some r2)
    (hi : recCount r = r.total_errors) :
    recCount r2 = r2.total_errors ∧ r2.by_category = r.by_category := by
  unfold extract_errors at h
  cases hf : failStep r line with
  | none =>
    rw [hf] at h
    cases h
  | some r1 =>
    rw [hf] at h
    simp only [Option.map_some'] at h
    cases h
    obtain ⟨hi1, hb1⟩ := failStep_inv r r1 line hf hi
    obtain ⟨hi2, hb2⟩ := notFoundStep_inv r1 line hi1
    exact ⟨hi2, hb2.trans hb1⟩

/-- The line loop keeps record count equal to the total and does not touch
the buckets. -/
theorem processLines_inv (lines : List (List Char)) (r r2 : AnalysisResult)
    (h : processLines r lines = some r2)
    (hi : recCount r = r.total_errors) :
    recCount r2 = r2.total_errors ∧ r2.by_category = r.by_category := by
  induction lines generalizing r with
  | nil =>
    unfold processLines at h
    cases h
    exact ⟨hi, rfl⟩
  | cons l ls ih =>
    unfold processLines at h
    by_cases hg : containsTok (pyLower l) shebeLit = true
    · rw [if_pos hg] at h
      cases he : extract_errors r l with
      | none =>
        rw [he] at h
        cases h
      | some r1 =>
        rw [he] at h
        obtain ⟨hi1, hb1⟩ := extract_errors_inv r r1 l he hi
        obtain ⟨hi2, hb2⟩ := ih r1 h hi1
        exact ⟨hi2, hb2.trans hb1⟩
    · rw [if_neg hg] at h
      exact ih r h hi

/-- The document loop keeps record count equal to the total and does not
touch the buckets. -/
theorem processFiles_inv (fs : List (List Char)) (r r2 : AnalysisResult)
    (h : processFiles r fs = some r2)
    (hi : recCount r = r.total_errors) :
    recCount r2 = r2.total_errors ∧ r2.by_category = r.by_category := by
  induction fs generalizing r with
  | nil =>
    unfold processFiles at h
    cases h
    exact ⟨hi, rfl⟩
  | cons f fs2 ih =>
    unfold processFiles analyze_file at h
    cases ha : processLines r (pySplitOn '\n' f) with
    | none =>
      rw [ha] at h
      cases h
    | some r1 =>
      rw [ha] at h
      obtain ⟨hi1, hb1⟩ := processLines_inv _ r r1 ha hi
      obtain ⟨hi2, hb2⟩ := ih r1 h hi1
      exact ⟨hi2, hb2.trans hb1⟩

/-- Filing a record under a composite key raises the bucket sum by one. -/
theorem sumBuckets_add (bc : List (String × List PyDict)) (k : String) (d : PyDict) :
    sumBuckets (addToCategory bc k d) = sumBuckets bc + 1 := by
  induction bc with
  | nil => simp [addToCategory, sumBuckets]
  | cons p t ih =>
    obtain ⟨k2, l⟩ := p
    unfold addToCategory
    by_cases h : k2 = k
    · rw [if_pos h]
      simp [sumBuckets, List.length_append]
      omega
    · rw [if_neg h]
      simp only [sumBuckets, List.map_cons, List.sum_cons] at ih ⊢
      omega

/-- Folding one record list into the buckets adds its length to the sum. -/
theorem sumBuckets_fold (pre : String) (errs : List PyDict)
    (bc : List (String × List PyDict)) :
    sumBuckets (errs.foldl
      (fun acc d => addToCategory acc (pre ++ dictGet d ("category") ("unknown")) d) bc) =
      sumBuckets bc + errs.length := by
  induction errs generalizing bc with
  | nil => simp
  | cons d ds ih =>
    simp only [List.foldl_cons, List.length_cons]
    rw [ih, sumBuckets_add]
    omega

/-- groupInto adds the length of the grouped list to the bucket sum. -/
theorem sumBuckets_groupInto (pre : String) (errs : List PyDict)
    (bc : List (String × List PyDict)) :
    sumBuckets (groupInto pre errs bc) = sumBuckets bc + errs.length := by
  unfold groupInto
  exact sumBuckets_fold pre errs bc

/-- The final grouping files every record of the three classified lists into
exactly one bucket and changes nothing else. -/
theorem categorize_errors_sum (r : AnalysisResult) :
    sumBuckets (categorize_errors r).by_category =
      sumBuckets r.by_category + r.query_syntax_errors.length +
        r.session_errors.length + r.file_errors.length ∧
    (categorize_errors r).total_errors = r.total_errors ∧
    (categorize_errors r).other_errors = r.other_errors := by
  unfold categorize_errors
  refine ⟨?_, rfl, rfl⟩
  rw [sumBuckets_groupInto, sumBuckets_groupInto, sumBuckets_groupInto]

/-! Claim theorems. -/

/-- C3 (amended): after a full run, the record count summed over all
composite-category buckets plus the length of the other-errors list equals
total-errors; equivalently, the buckets account exactly for the tool-failure
records that matched one of the categorizing rules, while catch-all tool
failures and tool-not-found records sit only in other-errors. -/
theorem c3_bucket_sum (contents : List String) (r : AnalysisResult)
    (h : runAnalysis contents = some r) :
    sumBuckets r.by_category + r.other_errors.length = r.total_errors := by
  unfold runAnalysis at h
  cases hp : processFiles emptyAnalysisResult (contents.map String.data) with
  | none =>
    rw [hp] at h
    cases h
  | some r0 =>
    rw [hp] at h
    simp only [Option.map_some'] at h
    cases h
    obtain ⟨hi, hb⟩ := processFiles_inv _ emptyAnalysisResult r0 hp rfl
    obtain ⟨hs, ht, ho⟩ := categorize_errors_sum r0
    rw [hs, ht, ho, hb]
    simp [recCount, emptyAnalysisResult, sumBuckets] at hi ⊢
    omega

/-- Witness for C3 on a one-line corpus. -/
theorem c3_bucket_sum_witness :
    sumBuckets ((runAnalysis
        [("Tool \x27search_code\x27 failed with shebe error: mystery")]).getD
        emptyAnalysisResult).by_category +
      ((runAnalysis
        [("Tool \x27search_code\x27 failed with shebe error: mystery")]).getD
        emptyAnalysisResult).other_errors.length =
      ((runAnalysis
        [("Tool \x27search_code\x27 failed with shebe error: mystery")]).getD
        emptyAnalysisResult).total_errors :=
  c3_bucket_sum [("Tool \x27search_code\x27 failed with shebe error: mystery")] _
    (by decide)

/-- C3 counterexample: a corpus of one tool-failure line whose message
matches no categorizing rule: the failure is counted in total-errors and its
record lands in other-errors, so the composite buckets sum to zero, not to
the number of tool-failure records, refuting the claim as stated. -/
theorem c3_catchall_not_bucketed_cex :
    (runAnalysis [("Tool \x27search_code\x27 failed with shebe error: mystery")]).map
        (fun r => (sumBuckets r.by_category, r.total_errors, r.other_errors.length)) =
      some (0, 1, 1) := by
  decide

/-- C6: the input message about the search-code tool failing with a syntax
error on a brace-holding URL path is extracted as a tool failure of tool
search-code and classified into the query-syntax list with subcategory
url-pattern; the final grouping files it under the composite key
query-url-pattern. -/
theorem c6_end_to_end_url_pattern :
    extract_errors emptyAnalysisResult
        ("Tool \x27search_code\x27 failed with error: Syntax Error: /users/\x7bid\x7d/roles").data =
      some { total_errors := 1,
             by_tool := [(("search_code"), 1)],
             by_category := [],
             query_syntax_errors :=
               [[(("tool"), ("search_code")), (("query"), ("/users/\x7bid\x7d/roles")),
                 (("category"), ("url_pattern"))]],
             session_errors := [], file_errors := [], other_errors := [] } ∧
    (extract_errors emptyAnalysisResult
        ("Tool \x27search_code\x27 failed with error: Syntax Error: /users/\x7bid\x7d/roles").data).map
        (fun r => (categorize_errors r).by_category) =
      some [(("query_url_pattern"),
        [[(("tool"), ("search_code")), (("query"), ("/users/\x7bid\x7d/roles")),
          (("category"), ("url_pattern"))]])] := by
  exact ⟨by decide, by decide⟩

/-- C4: on a missing log directory the first script prints the message,
produces the fresh empty result with no improvements and completes normally,
while the second script prints the message, builds the empty report and then
dies in print-report on the summary subscript (KeyError), so it does not
complete with status zero as the claim states. -/
theorem c4_missing_dir_scripts_diverge :
    script1Main ("/nonexistent") none = some (emptyAnalysisResult, []) ∧
    (script1Analyze ("/nonexistent") none).1 =
      [("Debug directory not found: /nonexistent")] ∧
    (script2Analyze ("/nonexistent") none).1 =
      [("Debug directory not found: /nonexistent")] ∧
    script2Main ("/nonexistent") none = none := by
  refine ⟨?_, rfl, rfl, rfl⟩
  decide

/-- C9: a line naming a missing shebe tool produces the tool-not-found record
for that tool, bumps the total error count by one and bumps the synthetic
tool-not-found key of the per-tool counts by one, from any prior state. -/
theorem c9_tool_not_found_line (r0 : AnalysisResult) :
    extract_errors r0 ("Tool mcp__shebe__read_file not found").data =
      some { r0 with
        total_errors := r0.total_errors + 1,
        by_tool := bumpTool r0.by_tool ("tool_not_found"),
        other_errors := r0.other_errors ++
          [[(("type"), ("tool_not_found")), (("tool"), ("mcp__shebe__read_file")),
            (("message"),
             ("Server not running when mcp__shebe__read_file was called"))]] } ∧
    toolCount (bumpTool r0.by_tool ("tool_not_found")) ("tool_not_found") =
      toolCount r0.by_tool ("tool_not_found") + 1 := by
  constructor
  · have h1 : searchOpt toolFailAt ("Tool mcp__shebe__read_file not found").data = none := by
      decide
    have h2 : searchOpt notFoundAt ("Tool mcp__shebe__read_file not found").data =
        some ("mcp__shebe__read_file").data := by
      decide
    simp only [extract_errors, failStep, notFoundStep, h1, h2, Option.map_some']
    rfl
  · exact toolCount_bump r0.by_tool ("tool_not_found")

/-- Witness for C9 at the fresh state. -/
theorem c9_tool_not_found_line_witness :
    extract_errors emptyAnalysisResult ("Tool mcp__shebe__read_file not found").data =
      some { emptyAnalysisResult with
        total_errors := 1,
        by_tool := bumpTool [] ("tool_not_found"),
        other_errors :=
          [[(("type"), ("tool_not_found")), (("tool"), ("mcp__shebe__read_file")),
            (("message"),
             ("Server not running when mcp__shebe__read_file was called"))]] } :=
  (c9_tool_not_found_line emptyAnalysisResult).1

/-- C8: whenever the shebe-only comparison group is empty, the reported
serena-to-shebe size ratio is exactly zero (and no division happens). -/
theorem c8_ratio_zero_when_no_shebe_only (sessions : List SessionStats)
    (h : shebeOnly sessions = []) :
    (comparisonOf sessions).serena_vs_shebe_size_ratio = 0 := by
  simp [comparisonOf, h]

/-- C10: a session that used both providers changes none of the comparison
metrics (the averages and the ratio are computed over the exclusive groups
only), yet raises the count entry of both the serena-sessions and the
shebe-sessions aggregate groups by one. -/
theorem c10_both_counted_not_averaged (sessions : List SessionStats)
    (s : SessionStats) (h1 : s.has_serena = true) (h2 : s.has_shebe = true) :
    comparisonOf (sessions ++ [s]) = comparisonOf sessions ∧
    aggGet (aggregate_stats
        (serenaOnly (sessions ++ [s]) ++ bothProviders (sessions ++ [s]))) ("count") =
      aggGet (aggregate_stats (serenaOnly sessions ++ bothProviders sessions)) ("count") + 1 ∧
    aggGet (aggregate_stats
        (shebeOnly (sessions ++ [s]) ++ bothProviders (sessions ++ [s]))) ("count") =
      aggGet (aggregate_stats (shebeOnly sessions ++ bothProviders sessions)) ("count") + 1 := by
  have hso : serenaOnly (sessions ++ [s]) = serenaOnly sessions := by
    simp [serenaOnly, List.filter_append, h1, h2]
  have hhe : shebeOnly (sessions ++ [s]) = shebeOnly sessions := by
    simp [shebeOnly, List.filter_append, h1, h2]
  have hnp : neitherProvider (sessions ++ [s]) = neitherProvider sessions := by
    simp [neitherProvider, List.filter_append, h1, h2]
  have hbo : bothProviders (sessions ++ [s]) = bothProviders sessions ++ [s] := by
    simp [bothProviders, List.filter_append, h1, h2]
  refine ⟨?_, ?_, ?_⟩
  · unfold comparisonOf
    rw [hso, hhe, hnp]
  · rw [hso, hbo, aggGet_count, aggGet_count]
    simp [List.length_append]
    ring
  · rw [hhe, hbo, aggGet_count, aggGet_count]
    simp [List.length_append]
    ring

/-- Witness for C10 at the empty prior list and one both-provider session. -/
theorem c10_both_counted_not_averaged_witness :
    comparisonOf ([] ++
      [{ session_id := ("b"), file_size_bytes := 4096, tool_calls := [("shebe__search_code")],
         serena_calls := 2, shebe_calls := 3, other_mcp_calls := 0, builtin_calls := 0,
         has_serena := true, has_shebe := true, estimated_tokens := 1024 }]) = comparisonOf [] :=
  (c10_both_counted_not_averaged []
    { session_id := ("b"), file_size_bytes := 4096, tool_calls := [("shebe__search_code")],
      serena_calls := 2, shebe_calls := 3, other_mcp_calls := 0, builtin_calls := 0,
      has_serena := true, has_shebe := true, estimated_tokens := 1024 } rfl rfl).1

/-- C2 (amended): when the unknown-field shape matches, the message holds the
unsupported-query substring, and the earlier query-syntax rule of the
categorizer does not match, rule 2 emits the field-prefix record — in
particular the subcategory is field-prefix and never unsupported-query. -/
theorem c2_field_rule_wins (toolName msg : String) (f : List Char)
    (hsyn : searchOpt synErrAt msg.data = none)
    (hfld : searchOpt fieldAt msg.data = some f)
    (_hunsup : containsTok msg.data unsupportedLit = true) :
    categorize_error toolName msg.data =
      some (Dest.query,
        [(("tool"), toolName), (("query"), String.mk f ++ (":...")),
         (("category"), ("field_prefix")), (("field"), String.mk f)]) := by
  unfold categorize_error
  rw [hsyn, hfld]

/-- Witness for C2 on a message with no query-syntax shape. -/
theorem c2_field_rule_wins_witness :
    categorize_error ("search_code")
        ("Field does not exist: \x27foo\x27 Unsupported query").data =
      some (Dest.query,
        [(("tool"), ("search_code")), (("query"), ("foo:...")),
         (("category"), ("field_prefix")), (("field"), ("foo"))]) := by
  exact c2_field_rule_wins ("search_code")
    ("Field does not exist: \x27foo\x27 Unsupported query") ("foo").data
    (by decide) (by decide) (by decide)

/-- C2 counterexample: a message matching the unknown-field shape and holding
the unsupported-query substring, but also matching the query-syntax rule that
comes first, is classified by rule 1 with subcategory special-chars, not
field-prefix: the claim as stated, quantifying over every such message, is
false. -/
theorem c2_syntax_rule_preempts_cex :
    searchOpt fieldAt
        ("Syntax Error: x Field does not exist: \x27f\x27 Unsupported query").data =
      some ('f' :: []) ∧
    containsTok
        ("Syntax Error: x Field does not exist: \x27f\x27 Unsupported query").data
        unsupportedLit = true ∧
    categorize_error ("search_code")
        ("Syntax Error: x Field does not exist: \x27f\x27 Unsupported query").data =
      some (Dest.query,
        [(("tool"), ("search_code")),
         (("query"), ("x Field does not exist: \x27f\x27 Unsupported query")),
         (("category"), ("special_chars"))]) := by
  exact ⟨by decide, by decide, by decide⟩

/-- C5: classification is a pure function of its inputs — two runs on the
same message agree — and the destination together with the stored category
value depends only on the message, never on the tool name. -/
theorem c5_classification_deterministic (t1 t2 msg : String) :
    categorize_error t1 msg.data = categorize_error t1 msg.data ∧
    (categorize_error t1 msg.data).map
        (fun p => (p.1, dictGet p.2 ("category") ("unknown"))) =
      (categorize_error t2 msg.data).map
        (fun p => (p.1, dictGet p.2 ("category") ("unknown"))) := by
  refine ⟨rfl, ?_⟩
  unfold categorize_error
  cases searchOpt synErrAt msg.data with
  | some raw => cases hq : classify_query_error (pyStrip raw) <;> simp [dictGet, hq]
  | none =>
  cases searchOpt fieldAt msg.data with
  | some f => simp [dictGet]
  | none =>
  cases searchOpt sessExistsAt msg.data with
  | some sess => simp [dictGet]
  | none =>
  cases searchOpt oldSchemaAt msg.data with
  | some sv => simp [dictGet]
  | none =>
  cases searchOpt fileNotIndexedAt msg.data with
  | some fs => simp [dictGet]
  | none =>
  by_cases hu : containsTok msg.data unsupportedLit <;>
    by_cases hl : containsTok msg.data tooLargeLit <;>
    by_cases hs : containsTok msg.data sessOnlyLit <;>
    simp [hu, hl, hs, dictGet]

/-- C1 counterexample: on the one-space query the sub-classifier raises
IndexError in the annotation check (the split token list is empty while the
query itself is truthy), so it is not total on every string as the claim
states. -/
theorem c1_whitespace_query_raises_cex : classifyQueryError (" ") = none := by
  decide

/-- C1 (amended): on every query that is empty or holds a non-whitespace
character — every value the pipeline can pass it, since captured queries are
stripped first — the sub-classifier returns exactly one of the seven
subcategories and never raises; only nonempty all-whitespace strings raise. -/
theorem c1_subclassifier_total_on_nonblank (q : String)
    (h : q = ("") ∨ ∃ c ∈ q.data, c.isWhitespace = false) :
    ∃ cat, classifyQueryError q = some cat ∧ cat ∈ subcategories := by
  have h2 : q.data = [] ∨ ∃ c ∈ q.data, c.isWhitespace = false := by
    rcases h with rfl | hx
    · exact Or.inl rfl
    · exact Or.inr hx
  obtain ⟨b, hb⟩ := annotCond_isSome q.data h2
  unfold classifyQueryError classify_query_error
  by_cases hu : hasUrlPat q.data = true
  · rw [if_pos hu]
    exact ⟨_, rfl, by decide⟩
  · rw [if_neg hu, hb]
    cases b
    · by_cases ha : containsTok q.data (':' :: '=' :: []) = true
      · rw [if_pos ha]
        exact ⟨_, rfl, by decide⟩
      · rw [if_neg ha]
        by_cases hf : fieldColonAt q.data = true
        · rw [if_pos hf]
          exact ⟨_, rfl, by decide⟩
        · rw [if_neg hf]
          by_cases hc : q.data.any isSpecialChar = true
          · rw [if_pos hc]
            exact ⟨_, rfl, by decide⟩
          · rw [if_neg hc]
            by_cases hl : 3 < (pySplit q.data).length
            · rw [if_pos hl]
              exact ⟨_, rfl, by decide⟩
            · rw [if_neg hl]
              exact ⟨_, rfl, by decide⟩
    · exact ⟨_, rfl, by decide⟩

/-- Witness for C1 on a plain word query. -/
theorem c1_subclassifier_total_witness :
    ∃ cat, classifyQueryError ("abc") = some cat ∧ cat ∈ subcategories :=
  c1_subclassifier_total_on_nonblank ("abc")
    (Or.inr ⟨'a', by decide, by decide⟩)

/-- C7 counterexample: the query has a whitespace-delimited token beginning
with the at sign and matches no URL shape, yet the sub-classifier returns
other, because the code only inspects the first token (and the router
literal): the claim as stated is false. -/
theorem c7_at_token_later_position_cex :
    hasUrlPat ("foo @param").data = false ∧
    pySplit ("foo @param").data = [("foo").data, ("@param").data] ∧
    classifyQueryError ("foo @param") = some ("other") := by
  exact ⟨by decide, by decide, by decide⟩

/-- C7 (amended): for a query that does not match the URL rule and is empty
or holds a non-whitespace character, the sub-classifier returns annotation
exactly when the router literal occurs anywhere in the query or the first
whitespace-delimited token contains an at sign anywhere in it; an at-prefixed
token in a later position does not trigger the annotation subcategory. -/
theorem c7_annot_first_token_rule (q : String) (hu : hasUrlPat q.data = false)
    (h : q = ("") ∨ ∃ c ∈ q.data, c.isWhitespace = false) :
    (classifyQueryError q = some ("annotation") ↔
      (containsTok q.data routerLit = true ∨
        ∃ t r, pySplit q.data = t :: r ∧ containsTok t ('@' :: []) = true)) := by
  have hu2 : ¬hasUrlPat q.data = true := by simp [hu]
  rcases h with rfl | ⟨c, hc, hw⟩
  · constructor
    · intro hL
      exact absurd hL (by decide)
    · intro hR
      rcases hR with hr | ⟨t, r, ht, _⟩
      · exact absurd hr (by decide)
      · exact absurd ht (by simp [pySplit, pySplitAux])
  · have hne : q.data.isEmpty = false := by
      cases hq : q.data
      · rw [hq] at hc; cases hc
      · rfl
    by_cases hr : containsTok q.data routerLit = true
    · have hac : annotCond q.data = some true := by
        unfold annotCond
        rw [if_neg (by simp [hne]), if_pos hr]
      unfold classifyQueryError classify_query_error
      rw [if_neg hu2, hac]
      simp [hr]
    · cases hsp : pySplit q.data with
      | nil => exact absurd hsp (pySplit_ne_nil q.data c hc hw)
      | cons t r =>
        have hac : annotCond q.data = some (containsTok t ('@' :: [])) := by
          unfold annotCond
          rw [if_neg (by simp [hne]), if_neg hr, hsp]
        unfold classifyQueryError classify_query_error
        rw [if_neg hu2, hac]
        by_cases hat : containsTok t ('@' :: []) = true
        · rw [hat]
          constructor
          · intro _
            exact Or.inr ⟨t, r, rfl, hat⟩
          · intro _
            rfl
        · rw [Bool.of_not_eq_true hat]
          constructor
          · intro hL
            by_cases ha : containsTok q.data (':' :: '=' :: []) = true
            · rw [if_pos ha] at hL
              exact absurd hL (by decide)
            · rw [if_neg ha] at hL
              by_cases hf : fieldColonAt q.data = true
              · rw [if_pos hf] at hL
                exact absurd hL (by decide)
              · rw [if_neg hf] at hL
                by_cases hcs : q.data.any isSpecialChar = true
                · rw [if_pos hcs] at hL
                  exact absurd hL (by decide)
                · rw [if_neg hcs] at hL
                  by_cases hl3 : 3 < (pySplit q.data).length
                  · rw [if_pos hl3] at hL
                    exact absurd hL (by decide)
                  · rw [if_neg hl3] at hL
                    exact absurd hL (by decide)
          · intro hR
            rcases hR with h1 | ⟨t2, r2, ht2, hat2⟩
            · exact absurd h1 hr
            · cases ht2
              exact absurd hat2 hat

/-- Witness for C7 on a query holding the router literal. -/
theorem c7_annot_first_token_rule_witness :
    classifyQueryError ("@Router /x") = some ("annotation") :=
  (c7_annot_first_token_rule ("@Router /x") (by decide)
    (Or.inr ⟨'@', by decide, by decide⟩)).mpr (Or.inl (by decide))

/-- Witness for C5 at two different tool names and a concrete message. -/
theorem c5_classification_deterministic_witness :
    (categorize_error ("a") ("Unsupported query type").data).map
        (fun p => (p.1, dictGet p.2 ("category") ("unknown"))) =
      (categorize_error ("b") ("Unsupported query type").data).map
        (fun p => (p.1, dictGet p.2 ("category") ("unknown"))) :=
  (c5_classification_deterministic ("a") ("b") ("Unsupported query type")).2

/-- Witness for C8: one serena-only session leaves the shebe-only group
empty and the ratio is zero. -/
theorem c8_ratio_zero_witness :
    (comparisonOf
      [{ session_id := ("a"), file_size_bytes := 2048, tool_calls := [("serena__find_symbol")],
         serena_calls := 1, shebe_calls := 0, other_mcp_calls := 0, builtin_calls := 0,
         has_serena := true, has_shebe := false,
         estimated_tokens := 512 }]).serena_vs_shebe_size_ratio = 0 :=
  c8_ratio_zero_when_no_shebe_only _ (by decide)

end Shebe
